import Mathlib

/-!
Verification of the replay DOM-inspect feature: a shallow embedding of
`replayDOMInspectButton.tsx` and `replayInspectQueryModal.tsx`.

Strings from the source are modelled as `List Char`; the component's
React refs, the playback flag, the iframe DOM styles and the set of
attached event listeners are modelled as one explicit state record, and
every callback of the component becomes a state-transition function.
Calls to the external replay/modal/explorer APIs are recorded in a trace.
-/

abbrev Str := List Char

/-- The `HIGHLIGHT_STYLE` constant appended to a hovered element's
inline `cssText`. -/
def highlightStyle : Str :=
  ("outline: 2px solid #6C5FC7 !important; outline-offset: -1px !important; cursor: crosshair !important;").toList

/-- JavaScript whitespace, as recognised by `String.prototype.trim`. -/
def isJsWhitespace (c : Char) : Bool :=
  c == ' ' || c == '\t' || c == '\n' || c == '\r' ||
  c == '\x0b' || c == '\x0c' || c == '\u00A0' || c == '\u1680' ||
  (0x2000 ≤ c.val && c.val ≤ 0x200A) ||
  c == '\u2028' || c == '\u2029' || c == '\u202F' || c == '\u205F' ||
  c == '\u3000' || c == '\uFEFF'

/-- `query.trim()`: drop leading and trailing JavaScript whitespace. -/
def jsTrim (q : Str) : Str :=
  ((q.dropWhile isJsWhitespace).reverse.dropWhile isJsWhitespace).reverse

/-- The modal's `handleSubmit`: call `onSubmit(query.trim())` exactly when
`query.trim()` is truthy (non-empty); `none` models "no call". -/
def handleSubmit (query : Str) : Option Str :=
  if jsTrim query ≠ [] then some (jsTrim query) else none

/-- The `disabled` flag on the modal's submit button: `!query.trim()`. -/
def submitDisabled (query : Str) : Bool :=
  (jsTrim query).isEmpty

/-- The modal's `htmlPreview` of the selected element. -/
def htmlPreview (selectedHtml : Str) : Str :=
  if selectedHtml.length > 200 then selectedHtml.take 200 ++ ("...").toList
  else selectedHtml

/-- Text of the Seer prompt between the user query and the html block. -/
def promptIntro : Str :=
  ("\n\nThe user selected the following DOM element from a Session Replay recording. Use this HTML context to focus your investigation:\n\n```html\n").toList

/-- Text of the Seer prompt after the html block. -/
def promptOutro : Str :=
  ("\n```\n\nPlease use this HTML as context to help investigate the user\x27s query. The HTML represents a specific element the user identified in their session replay as relevant to their question.").toList

/-- The marker appended when the html is cut at 5,000 characters. -/
def truncationMarker : Str := ("\n... (truncated)").toList

/-- The `truncatedHtml` local of `buildSeerPrompt`. -/
def truncatedHtml (html : Str) : Str :=
  if html.length > 5000 then html.take 5000 ++ truncationMarker else html

/-- `buildSeerPrompt(userQuery, html)` from `replayDOMInspectButton.tsx`. -/
def buildSeerPrompt (userQuery html : Str) : Str :=
  userQuery ++ promptIntro ++ truncatedHtml html ++ promptOutro

/-- Which document a listener is registered on: the replay iframe's
`contentDocument` or the parent `document`. -/
inductive Doc where
  | iframeDoc
  | parentDoc
deriving DecidableEq, Repr

/-- DOM event names used by the component. -/
inductive EvName where
  | mouseover
  | mouseout
  | click
  | keydown
deriving DecidableEq, Repr

/-- The four handler functions defined inside the effect. -/
inductive Handler where
  | hMouseOver
  | hMouseOut
  | hClick
  | hKeyDown
deriving DecidableEq, Repr

/-- One registered event listener: document, event name, handler
identity and `useCapture` flag, as passed to `addEventListener`. -/
structure Listener where
  doc : Doc
  event : EvName
  handler : Handler
  capture : Bool
deriving DecidableEq, Repr

/-- Calls made to APIs external to the component (`togglePlayPause` from
the replay context, `openModal`, `openSeerExplorer`). -/
inductive ExtCall where
  | togglePlayPauseCall (play : Bool)
  | openModalCall (selectedHtml : Str)
  | openSeerExplorerCall (startNewRun : Bool) (initialMessage : Str)
deriving DecidableEq, Repr

/-- The component's state: React state/refs (`isInspecting`,
`wasPlayingRef`, `previousHighlightRef`, `previousStyleRef`), the replay
context's playback flag, the iframe DOM (per-element `style.cssText` and
`outerHTML`, keyed by `Nat` element ids, plus the body cursor), whether
`getReplayIframe()?.contentDocument` is available, the currently open
modal's `selectedHtml`, the registered listeners, and the external-call
trace. -/
structure CState where
  isInspecting : Bool
  wasPlaying : Bool
  isPlaying : Bool
  prevHighlight : Option Nat
  prevStyle : Str
  dom : Nat → Str
  outer : Nat → Str
  cursor : Str
  iframePresent : Bool
  modal : Option Str
  listeners : List Listener
  trace : List ExtCall

/-- `cleanupHighlight`: restore the saved `cssText` of the previously
highlighted element and reset both refs. -/
def cleanupHighlight (s : CState) : CState :=
  match s.prevHighlight with
  | some el =>
      { s with dom := Function.update s.dom el s.prevStyle,
               prevHighlight := none,
               prevStyle := [] }
  | none => s

/-- `stopInspecting`: clear the inspecting flag, clean the highlight,
reset the iframe body cursor when the iframe document exists, and resume
playback exactly when `wasPlayingRef.current` is set. -/
def stopInspecting (s : CState) : CState :=
  let s1 := { s with isInspecting := false }
  let s2 := cleanupHighlight s1
  let s3 := if s2.iframePresent then { s2 with cursor := [] } else s2
  if s3.wasPlaying then
    { s3 with trace := s3.trace ++ [ExtCall.togglePlayPauseCall true],
              isPlaying := true,
              wasPlaying := false }
  else s3

/-- `handleElementSelected(html)`: stop inspecting and open the modal
with the captured html. -/
def handleElementSelected (html : Str) (s : CState) : CState :=
  let s1 := stopInspecting s
  { s1 with modal := some html,
            trace := s1.trace ++ [ExtCall.openModalCall html] }

/-- The modal's `onSubmit` wiring inside `handleElementSelected`: close
the modal and call `openSeerExplorer` with `buildSeerPrompt(query, html)`
as the initial message of a new run. -/
def modalSubmitWiring (html query : Str) (s : CState) : CState :=
  { s with modal := none,
           trace := s.trace ++
             [ExtCall.openSeerExplorerCall true (buildSeerPrompt query html)] }

/-- The effect's `handleMouseOver`: ignore a missing target and the
body/documentElement; otherwise clean the previous highlight, save the
target and its `cssText`, and append `HIGHLIGHT_STYLE`. -/
def handleMouseOver (body docElem : Nat) (target : Option Nat) (s : CState) : CState :=
  match target with
  | none => s
  | some t =>
      if t = body ∨ t = docElem then s
      else
        let s1 := cleanupHighlight s
        { s1 with prevHighlight := some t,
                  prevStyle := s1.dom t,
                  dom := Function.update s1.dom t (s1.dom t ++ highlightStyle) }

/-- The effect's `handleMouseOut`: clean the highlight when the target
is the currently highlighted element. -/
def handleMouseOut (target : Option Nat) (s : CState) : CState :=
  if target = s.prevHighlight then cleanupHighlight s else s

/-- The effect's `handleClick`: ignore a missing target and the
body/documentElement; otherwise pass the first 10,000 characters of the
target's `outerHTML` to `handleElementSelected`. -/
def handleClick (body docElem : Nat) (target : Option Nat) (s : CState) : CState :=
  match target with
  | none => s
  | some t =>
      if t = body ∨ t = docElem then s
      else handleElementSelected ((s.outer t).take 10000) s

/-- The `key` string of the Escape key. -/
def escapeKey : Str := ("Escape").toList

/-- The effect's `handleKeyDown`: stop inspecting exactly on Escape. -/
def handleKeyDown (key : Str) (s : CState) : CState :=
  if key = escapeKey then stopInspecting s else s

/-- The five `addEventListener` registrations made by the effect body. -/
def attachedListeners : List Listener :=
  [⟨Doc.iframeDoc, EvName.mouseover, Handler.hMouseOver, true⟩,
   ⟨Doc.iframeDoc, EvName.mouseout, Handler.hMouseOut, true⟩,
   ⟨Doc.iframeDoc, EvName.click, Handler.hClick, true⟩,
   ⟨Doc.iframeDoc, EvName.keydown, Handler.hKeyDown, true⟩,
   ⟨Doc.parentDoc, EvName.keydown, Handler.hKeyDown, true⟩]

/-- The five `removeEventListener` calls made by the effect's cleanup. -/
def removedListeners : List Listener :=
  [⟨Doc.iframeDoc, EvName.mouseover, Handler.hMouseOver, true⟩,
   ⟨Doc.iframeDoc, EvName.mouseout, Handler.hMouseOut, true⟩,
   ⟨Doc.iframeDoc, EvName.click, Handler.hClick, true⟩,
   ⟨Doc.iframeDoc, EvName.keydown, Handler.hKeyDown, true⟩,
   ⟨Doc.parentDoc, EvName.keydown, Handler.hKeyDown, true⟩]

/-- The effect body: do nothing unless inspecting; reset the inspecting
flag and attach nothing when the iframe document is gone; otherwise set
the crosshair cursor and register the five listeners. -/
def effectRun (s : CState) : CState :=
  if ¬ s.isInspecting then s
  else if ¬ s.iframePresent then { s with isInspecting := false }
  else
    { s with cursor := ("crosshair").toList,
             listeners := s.listeners ++ attachedListeners }

/-- The effect's cleanup: `removeEventListener` for each registration. -/
def effectCleanup (s : CState) : CState :=
  { s with listeners := removedListeners.foldl List.erase s.listeners }

/-- `handleToggleInspect`: when inspecting, stop; otherwise bail out if
the iframe document is missing, pause playback (recording the
was-playing flag) when playing, and set the inspecting flag. -/
def handleToggleInspect (s : CState) : CState :=
  if s.isInspecting then stopInspecting s
  else if ¬ s.iframePresent then s
  else
    let s1 :=
      if s.isPlaying then
        { s with wasPlaying := true,
                 trace := s.trace ++ [ExtCall.togglePlayPauseCall false],
                 isPlaying := false }
      else s
    { s1 with isInspecting := true }

/-- A concrete state used by the witnesses. -/
def sampleState : CState where
  isInspecting := false
  wasPlaying := false
  isPlaying := true
  prevHighlight := none
  prevStyle := []
  dom := fun _ => ("color: red;").toList
  outer := fun _ => ("<div>hello</div>").toList
  cursor := []
  iframePresent := true
  modal := none
  listeners := []
  trace := []

/-- The state in which inspection mode has just been requested. -/
def sampleInspecting : CState := { sampleState with isInspecting := true }

/-- A state whose iframe document is unavailable. -/
def sampleNoIframe : CState := { sampleState with iframePresent := false }

/-- An inspecting state whose iframe document has disappeared. -/
def sampleGoneIframe : CState :=
  { sampleState with iframePresent := false, isInspecting := true }

/-! ### Helper lemmas -/

theorem stopInspecting_isInspecting (s : CState) :
    (stopInspecting s).isInspecting = false := by
  rcases hp : s.prevHighlight with _ | el <;> rcases hw : s.wasPlaying <;>
    rcases hf : s.iframePresent <;> simp [stopInspecting, cleanupHighlight, hp, hw, hf]

theorem stopInspecting_listeners (s : CState) :
    (stopInspecting s).listeners = s.listeners := by
  rcases hp : s.prevHighlight with _ | el <;> rcases hw : s.wasPlaying <;>
    rcases hf : s.iframePresent <;> simp [stopInspecting, cleanupHighlight, hp, hw, hf]

theorem stopInspecting_prevHighlight (s : CState) :
    (stopInspecting s).prevHighlight = none := by
  rcases hp : s.prevHighlight with _ | el <;> rcases hw : s.wasPlaying <;>
    rcases hf : s.iframePresent <;> simp [stopInspecting, cleanupHighlight, hp, hw, hf]

theorem stopInspecting_cursor (s : CState) (hf : s.iframePresent = true) :
    (stopInspecting s).cursor = [] := by
  rcases hp : s.prevHighlight with _ | el <;> rcases hw : s.wasPlaying <;>
    simp [stopInspecting, cleanupHighlight, hp, hw, hf]

theorem stopInspecting_dom_restore (s : CState) (el : Nat)
    (hp : s.prevHighlight = some el) :
    (stopInspecting s).dom el = s.prevStyle ∧ (stopInspecting s).prevStyle = [] := by
  rcases hw : s.wasPlaying <;> rcases hf : s.iframePresent <;>
    simp [stopInspecting, cleanupHighlight, hp, hw, hf, Function.update_same]

theorem stopInspecting_wasPlaying_true (s : CState) (hw : s.wasPlaying = true) :
    (stopInspecting s).trace = s.trace ++ [ExtCall.togglePlayPauseCall true] ∧
    (stopInspecting s).wasPlaying = false ∧ (stopInspecting s).isPlaying = true := by
  rcases hp : s.prevHighlight with _ | el <;> rcases hf : s.iframePresent <;>
    simp [stopInspecting, cleanupHighlight, hp, hw, hf]

theorem stopInspecting_wasPlaying_false (s : CState) (hw : s.wasPlaying = false) :
    (stopInspecting s).trace = s.trace ∧
    (stopInspecting s).isPlaying = s.isPlaying ∧
    (stopInspecting s).wasPlaying = false := by
  rcases hp : s.prevHighlight with _ | el <;> rcases hf : s.iframePresent <;>
    simp [stopInspecting, cleanupHighlight, hp, hw, hf]

theorem foldl_erase_append {α : Type} [DecidableEq α] (xs : List α) :
    ∀ ys : List α, (∀ l ∈ ys, l ∉ xs) → ys.foldl List.erase (xs ++ ys) = xs := by
  intro ys
  induction ys with
  | nil => intro _; simp
  | cons y ys ih =>
      intro h
      have hy : y ∉ xs := h y (List.mem_cons_self y ys)
      rw [List.foldl_cons, List.erase_append_right _ hy, List.erase_cons_head]
      exact ih fun l hl => h l (List.mem_cons_of_mem y hl)

/-! ### Claims -/

/-- C1: for every selected element, the markup captured on click is the
first 10,000 characters of the element's `outerHTML`: the modal receives
`outerHTML.slice(0, 10000)`, which is the `outerHTML` unchanged when its
length is at most 10,000 and exactly its first 10,000 characters
otherwise. -/
theorem click_captures_first_10000 (s : CState) (body docElem tg : Nat)
    (hb : tg ≠ body) (hd : tg ≠ docElem) :
    (handleClick body docElem (some tg) s).modal = some ((s.outer tg).take 10000) ∧
    ((s.outer tg).length ≤ 10000 →
      (handleClick body docElem (some tg) s).modal = some (s.outer tg)) ∧
    (10000 < (s.outer tg).length →
      ((s.outer tg).take 10000).length = 10000) := by
  refine ⟨?_, fun hle => ?_, fun hlt => ?_⟩
  · simp [handleClick, hb, hd, handleElementSelected]
  · simp [handleClick, hb, hd, handleElementSelected, List.take_of_length_le hle]
  · simp [List.length_take]; omega

theorem click_captures_first_10000_witness :
    (handleClick 0 1 (some 2) sampleState).modal = some (sampleState.outer 2) :=
  (click_captures_first_10000 sampleState 0 1 2 (by decide) (by decide)).2.1 (by decide)

/-- C2: `buildSeerPrompt` starts with the user query, embeds the html
unchanged when its length is at most 5,000 and exactly its first 5,000
characters followed by the truncation marker otherwise, and the modal's
submit wiring forwards exactly this prompt to `openSeerExplorer`. -/
theorem seer_prompt_truncation (q html : Str) :
    (∃ rest, buildSeerPrompt q html = q ++ rest) ∧
    (html.length ≤ 5000 →
      buildSeerPrompt q html = q ++ promptIntro ++ html ++ promptOutro) ∧
    (5000 < html.length →
      buildSeerPrompt q html =
        q ++ promptIntro ++ (html.take 5000 ++ truncationMarker) ++ promptOutro ∧
      (html.take 5000).length = 5000) ∧
    (∀ s : CState, (modalSubmitWiring html q s).trace =
      s.trace ++ [ExtCall.openSeerExplorerCall true (buildSeerPrompt q html)]) := by
  refine ⟨⟨promptIntro ++ truncatedHtml html ++ promptOutro, by
      simp [buildSeerPrompt]⟩, fun hle => ?_, fun hlt => ?_, fun s => ?_⟩
  · rw [buildSeerPrompt, truncatedHtml, if_neg (by omega)]
  · refine ⟨by rw [buildSeerPrompt, truncatedHtml, if_pos (by omega)], ?_⟩
    simp [List.length_take]; omega
  · simp [modalSubmitWiring]

theorem seer_prompt_truncation_witness :
    buildSeerPrompt (("why is this broken").toList) (("<p>x</p>").toList) =
      ("why is this broken").toList ++ promptIntro ++ ("<p>x</p>").toList ++ promptOutro :=
  (seer_prompt_truncation _ _).2.1 (by decide)

/-- C3: the modal's preview equals `selectedHtml` itself when its length
is at most 200 (in particular at exactly 200), and equals the first 200
characters followed by "..." when longer. -/
theorem preview_truncation (h : Str) :
    (h.length ≤ 200 → htmlPreview h = h) ∧
    (200 < h.length →
      htmlPreview h = h.take 200 ++ ("...").toList ∧ (h.take 200).length = 200) ∧
    (h.length = 200 → htmlPreview h = h) := by
  refine ⟨fun hle => ?_, fun hlt => ⟨?_, ?_⟩, fun heq => ?_⟩
  · rw [htmlPreview, if_neg (by omega)]
  · rw [htmlPreview, if_pos (by omega)]
  · simp [List.length_take]; omega
  · rw [htmlPreview, if_neg (by omega)]

theorem preview_truncation_witness :
    htmlPreview (("<div>hello</div>").toList) = ("<div>hello</div>").toList :=
  (preview_truncation _).1 (by decide)

/-- C4: `handleMouseOver` on a valid target saves the target's inline
style (as it stands after the previous highlight is cleaned) and appends
the highlight style to it, and a subsequent `cleanupHighlight` restores
exactly the saved string and resets the saved-element reference to
`none` and the saved style to the empty string. -/
theorem highlight_restore_roundtrip (s : CState) (body docElem tg : Nat)
    (hb : tg ≠ body) (hd : tg ≠ docElem) :
    (handleMouseOver body docElem (some tg) s).prevHighlight = some tg ∧
    (handleMouseOver body docElem (some tg) s).prevStyle =
      (cleanupHighlight s).dom tg ∧
    (handleMouseOver body docElem (some tg) s).dom tg =
      (handleMouseOver body docElem (some tg) s).prevStyle ++ highlightStyle ∧
    (cleanupHighlight (handleMouseOver body docElem (some tg) s)).dom tg =
      (handleMouseOver body docElem (some tg) s).prevStyle ∧
    (cleanupHighlight (handleMouseOver body docElem (some tg) s)).prevHighlight =
      none ∧
    (cleanupHighlight (handleMouseOver body docElem (some tg) s)).prevStyle = [] := by
  simp [handleMouseOver, cleanupHighlight, hb, hd, Function.update_same]

theorem highlight_restore_roundtrip_witness :
    (cleanupHighlight (handleMouseOver 0 1 (some 2) sampleState)).dom 2 =
      (handleMouseOver 0 1 (some 2) sampleState).prevStyle ∧
    (cleanupHighlight (handleMouseOver 0 1 (some 2) sampleState)).prevHighlight =
      none ∧
    (cleanupHighlight (handleMouseOver 0 1 (some 2) sampleState)).prevStyle = [] :=
  (highlight_restore_roundtrip sampleState 0 1 2 (by decide) (by decide)).2.2.2

/-- C9: the modal's submit handler calls `onSubmit` exactly when the
trimmed query is non-empty, always with the trimmed query as argument;
on an empty or whitespace-only query nothing is called and the submit
button is disabled. -/
theorem submit_trimmed_nonempty (q r : Str) :
    (handleSubmit q = some r → r = jsTrim q ∧ r ≠ []) ∧
    (jsTrim q = [] → handleSubmit q = none ∧ submitDisabled q = true) ∧
    (jsTrim q ≠ [] →
      handleSubmit q = some (jsTrim q) ∧ submitDisabled q = false) := by
  by_cases hq : jsTrim q = []
  · refine ⟨fun h => ?_, fun _ => ?_, fun h => absurd hq h⟩
    · simp [handleSubmit, hq] at h
    · simp [handleSubmit, submitDisabled, hq]
  · refine ⟨fun h => ?_, fun h => absurd h hq, fun _ => ?_⟩
    · simp [handleSubmit, hq] at h
      exact ⟨h.symm, h ▸ hq⟩
    · simp [handleSubmit, submitDisabled, hq, List.isEmpty_iff]

theorem submit_trimmed_nonempty_witness :
    handleSubmit (("  how does this work  ").toList) =
      some (jsTrim (("  how does this work  ").toList)) ∧
    submitDisabled (("  how does this work  ").toList) = false :=
  (submit_trimmed_nonempty (("  how does this work  ").toList) []).2.2 (by decide)

/-- C10: mouseover and click events with a missing target or targeting
the iframe body or documentElement leave the state entirely unchanged:
no highlight, no capture, no modal, no end of inspection. -/
theorem body_targets_ignored (s : CState) (body docElem : Nat) :
    handleMouseOver body docElem none s = s ∧
    handleMouseOver body docElem (some body) s = s ∧
    handleMouseOver body docElem (some docElem) s = s ∧
    handleClick body docElem none s = s ∧
    handleClick body docElem (some body) s = s ∧
    handleClick body docElem (some docElem) s = s := by
  refine ⟨rfl, ?_, ?_, rfl, ?_, ?_⟩ <;> simp [handleMouseOver, handleClick]

/-- C5: listener attach/detach parity: the effect's cleanup removes, on
the same document with the same event name, handler and capture flag,
exactly the five listeners the effect attached, so running the effect
and its cleanup leaves the registered-listener list unchanged. -/
theorem listener_attach_detach_parity (s : CState)
    (hi : s.isInspecting = true) (hf : s.iframePresent = true)
    (hfresh : ∀ l ∈ attachedListeners, l ∉ s.listeners) :
    removedListeners = attachedListeners ∧
    (effectRun s).listeners = s.listeners ++ attachedListeners ∧
    (effectCleanup (effectRun s)).listeners = s.listeners := by
  refine ⟨rfl, by simp [effectRun, hi, hf], ?_⟩
  have h1 : (effectRun s).listeners = s.listeners ++ attachedListeners := by
    simp [effectRun, hi, hf]
  show removedListeners.foldl List.erase (effectRun s).listeners = s.listeners
  rw [h1]
  exact foldl_erase_append s.listeners attachedListeners hfresh

theorem listener_attach_detach_parity_witness :
    removedListeners = attachedListeners ∧
    (effectRun sampleInspecting).listeners =
      sampleInspecting.listeners ++ attachedListeners ∧
    (effectCleanup (effectRun sampleInspecting)).listeners =
      sampleInspecting.listeners :=
  listener_attach_detach_parity sampleInspecting rfl rfl (by decide)

/-- C6: `handleToggleInspect` on a non-inspecting state with an iframe
records the was-playing flag and emits `togglePlayPause(false)` exactly
when playback is active, and sets the inspecting flag; `stopInspecting`
emits `togglePlayPause(true)` and clears the flag exactly when the flag
was recorded, and otherwise never starts playback. -/
theorem pause_resume_parity (s t : CState)
    (hw : s.wasPlaying = false) (hni : s.isInspecting = false)
    (hf : s.iframePresent = true) :
    (handleToggleInspect s).isInspecting = true ∧
    (handleToggleInspect s).wasPlaying = s.isPlaying ∧
    (s.isPlaying = true →
      (handleToggleInspect s).trace =
        s.trace ++ [ExtCall.togglePlayPauseCall false] ∧
      (handleToggleInspect s).isPlaying = false) ∧
    (s.isPlaying = false → (handleToggleInspect s).trace = s.trace) ∧
    (t.wasPlaying = true →
      (stopInspecting t).trace = t.trace ++ [ExtCall.togglePlayPauseCall true] ∧
      (stopInspecting t).wasPlaying = false ∧
      (stopInspecting t).isPlaying = true) ∧
    (t.wasPlaying = false →
      (stopInspecting t).trace = t.trace ∧
      (stopInspecting t).isPlaying = t.isPlaying) := by
  refine ⟨?_, ?_, fun hp => ?_, fun hp => ?_,
    fun htw => stopInspecting_wasPlaying_true t htw,
    fun htw => ⟨(stopInspecting_wasPlaying_false t htw).1,
      (stopInspecting_wasPlaying_false t htw).2.1⟩⟩ <;>
    rcases hp2 : s.isPlaying <;>
    simp_all [handleToggleInspect, hni, hf, hw]

theorem pause_resume_parity_witness :
    (handleToggleInspect sampleState).isInspecting = true ∧
    (handleToggleInspect sampleState).wasPlaying = sampleState.isPlaying ∧
    (sampleState.isPlaying = true →
      (handleToggleInspect sampleState).trace =
        sampleState.trace ++ [ExtCall.togglePlayPauseCall false] ∧
      (handleToggleInspect sampleState).isPlaying = false) ∧
    (sampleState.isPlaying = false →
      (handleToggleInspect sampleState).trace = sampleState.trace) ∧
    (sampleState.wasPlaying = true →
      (stopInspecting sampleState).trace =
        sampleState.trace ++ [ExtCall.togglePlayPauseCall true] ∧
      (stopInspecting sampleState).wasPlaying = false ∧
      (stopInspecting sampleState).isPlaying = true) ∧
    (sampleState.wasPlaying = false →
      (stopInspecting sampleState).trace = sampleState.trace ∧
      (stopInspecting sampleState).isPlaying = sampleState.isPlaying) :=
  pause_resume_parity sampleState sampleState rfl rfl rfl

/-- C7: pressing Escape while inspecting (with the effect's listeners
attached) unwinds everything: the inspecting flag becomes false, the
highlighted element's style is restored and the saved references reset,
the iframe cursor is cleared, playback resumes exactly when it was
playing before, and the cleanup detaches all five listeners; any key
other than Escape changes nothing. -/
theorem escape_unwinds_inspection (s : CState)
    (hi : s.isInspecting = true) (hf : s.iframePresent = true)
    (hfresh : ∀ l ∈ attachedListeners, l ∉ s.listeners) :
    (effectCleanup (handleKeyDown escapeKey (effectRun s))).isInspecting = false ∧
    (effectCleanup (handleKeyDown escapeKey (effectRun s))).prevHighlight = none ∧
    (∀ el, s.prevHighlight = some el →
      (effectCleanup (handleKeyDown escapeKey (effectRun s))).dom el =
        s.prevStyle ∧
      (effectCleanup (handleKeyDown escapeKey (effectRun s))).prevStyle = []) ∧
    (effectCleanup (handleKeyDown escapeKey (effectRun s))).cursor = [] ∧
    (s.wasPlaying = true →
      (effectCleanup (handleKeyDown escapeKey (effectRun s))).isPlaying = true ∧
      (effectCleanup (handleKeyDown escapeKey (effectRun s))).trace =
        s.trace ++ [ExtCall.togglePlayPauseCall true]) ∧
    (s.wasPlaying = false →
      (effectCleanup (handleKeyDown escapeKey (effectRun s))).isPlaying =
        s.isPlaying) ∧
    (effectCleanup (handleKeyDown escapeKey (effectRun s))).listeners =
      s.listeners ∧
    (∀ k, k ≠ escapeKey → handleKeyDown k (effectRun s) = effectRun s) := by
  have hrun : effectRun s =
      { s with cursor := ("crosshair").toList,
               listeners := s.listeners ++ attachedListeners } := by
    simp [effectRun, hi, hf]
  have hkey : handleKeyDown escapeKey (effectRun s) =
      stopInspecting (effectRun s) := by
    simp [handleKeyDown]
  have hclean : ∀ u : CState,
      (effectCleanup u).isInspecting = u.isInspecting ∧
      (effectCleanup u).prevHighlight = u.prevHighlight ∧
      (effectCleanup u).dom = u.dom ∧
      (effectCleanup u).prevStyle = u.prevStyle ∧
      (effectCleanup u).cursor = u.cursor ∧
      (effectCleanup u).isPlaying = u.isPlaying ∧
      (effectCleanup u).trace = u.trace := by
    intro u; simp [effectCleanup]
  refine ⟨?_, ?_, fun el hp => ⟨?_, ?_⟩, ?_, fun hwp => ⟨?_, ?_⟩, fun hwp => ?_,
    ?_, fun k hk => by simp [handleKeyDown, hk]⟩
  · rw [(hclean _).1, hkey]; exact stopInspecting_isInspecting _
  · rw [(hclean _).2.1, hkey]; exact stopInspecting_prevHighlight _
  · rw [(hclean _).2.2.1, hkey]
    have := (stopInspecting_dom_restore (effectRun s) el (by rw [hrun]; exact hp)).1
    rw [this, hrun]
  · rw [(hclean _).2.2.2.1, hkey]
    exact (stopInspecting_dom_restore (effectRun s) el (by rw [hrun]; exact hp)).2
  · rw [(hclean _).2.2.2.2.1, hkey]
    exact stopInspecting_cursor _ (by rw [hrun]; exact hf)
  · rw [(hclean _).2.2.2.2.2.1, hkey]
    exact (stopInspecting_wasPlaying_true (effectRun s) (by rw [hrun]; exact hwp)).2.2
  · rw [(hclean _).2.2.2.2.2.2, hkey]
    have := (stopInspecting_wasPlaying_true (effectRun s) (by rw [hrun]; exact hwp)).1
    rw [this, hrun]
  · rw [(hclean _).2.2.2.2.2.1, hkey]
    have := (stopInspecting_wasPlaying_false (effectRun s) (by rw [hrun]; exact hwp)).2.1
    rw [this, hrun]
  · rw [hkey]
    show removedListeners.foldl List.erase (stopInspecting (effectRun s)).listeners
      = s.listeners
    rw [stopInspecting_listeners, hrun]
    exact foldl_erase_append s.listeners attachedListeners hfresh

theorem escape_unwinds_inspection_witness :
    (effectCleanup (handleKeyDown escapeKey (effectRun sampleInspecting))).isInspecting
      = false ∧
    (effectCleanup (handleKeyDown escapeKey (effectRun sampleInspecting))).listeners
      = sampleInspecting.listeners :=
  ⟨(escape_unwinds_inspection sampleInspecting rfl rfl (by decide)).1,
   (escape_unwinds_inspection sampleInspecting rfl rfl (by decide)).2.2.2.2.2.2.1⟩

/-- C8: with the iframe document missing, requesting inspection is a
no-op (`handleToggleInspect` returns the state unchanged, pausing
nothing and recording nothing), and if the iframe disappears after
inspection was requested the effect resets the inspecting flag and
attaches no listeners. -/
theorem missing_iframe_noop (s t : CState)
    (hni : s.isInspecting = false) (hnf : s.iframePresent = false)
    (hti : t.isInspecting = true) (htf : t.iframePresent = false) :
    handleToggleInspect s = s ∧
    (effectRun t).isInspecting = false ∧
    (effectRun t).listeners = t.listeners ∧
    (effectRun t).trace = t.trace ∧
    (effectRun t).isPlaying = t.isPlaying ∧
    (effectRun t).wasPlaying = t.wasPlaying := by
  refine ⟨?_, ?_, ?_, ?_, ?_, ?_⟩ <;>
    simp [handleToggleInspect, effectRun, hni, hnf, hti, htf]

theorem missing_iframe_noop_witness :
    handleToggleInspect sampleNoIframe = sampleNoIframe ∧
    (effectRun sampleGoneIframe).isInspecting = false ∧
    (effectRun sampleGoneIframe).listeners = sampleGoneIframe.listeners ∧
    (effectRun sampleGoneIframe).trace = sampleGoneIframe.trace ∧
    (effectRun sampleGoneIframe).isPlaying = sampleGoneIframe.isPlaying ∧
    (effectRun sampleGoneIframe).wasPlaying = sampleGoneIframe.wasPlaying :=
  missing_iframe_noop sampleNoIframe sampleGoneIframe rfl rfl rfl rfl
